import Mathlib

/-
Verification of the autophone job-dispatch pipeline.

The definitions below are a shallow embedding of the Python sources:
  jobs.py                  (the durable job store backed by sqlite)
  worker.py                (PhoneWorker / PhoneWorkerSubProcess)
  autophone.py             (supervisor heartbeat sweep)
  autophonepulsemonitor.py (pulse build-event admission filter)

Timestamps are modelled as naturals (the code stores ISO-format strings
whose lexicographic order agrees with time order).  SQLite integer
columns that can go negative (job attempts) are modelled as Int.
-/

set_option maxRecDepth 4000

/-! ## String helpers (model of Python substring tests and SQLite instr) -/

/-- Model of list prefix test, used for substring search. -/
def listLeads : List Char → List Char → Bool
  | [], _ => true
  | _ :: _, [] => false
  | a :: as, b :: bs => a == b && listLeads as bs

/-- Model of the Python `needle in hay` substring test. -/
def listHas (n : List Char) : List Char → Bool
  | [] => listLeads n []
  | c :: cs => listLeads n (c :: cs) || listHas n cs

/-- Model of the Python `needle in hay` substring test on strings. -/
def strHas (needle hay : String) : Bool :=
  listHas needle.toList hay.toList

/-- Helper for `instr`: 1-based index of the first occurrence, 0 if absent. -/
def instrAux (n : List Char) : List Char → Nat → Nat
  | [], _ => 0
  | c :: cs, k => if listLeads n (c :: cs) then k else instrAux n cs (k + 1)

/-- Model of SQLite `instr(hay, needle)`: the 1-based position of the first
occurrence of `needle` in `hay`, or 0 when `needle` does not occur. -/
def instr (hay needle : String) : Nat :=
  instrAux needle.toList hay.toList 1

/-! ## Data model of the job store (jobs.py, tables created in Jobs.__init__) -/

/-- A row of the `jobs` table (jobs.py lines 33-45). -/
structure JobRow where
  id : Nat
  created : Nat
  last_attempt : Option Nat
  build_url : String
  build_id : String
  changeset : String
  tree : String
  revision : String
  revision_hash : String
  enable_unittests : Bool
  attempts : Int
  device : String
deriving DecidableEq

/-- A row of the `tests` table (jobs.py lines 46-53).  The `repos` column
holds a JSON dump of a string list; since json.dumps is injective on such
lists we keep the list itself. -/
structure TestRow where
  id : Nat
  name : String
  config_file : String
  chunk : Int
  guid : String
  repos : List String
  jobid : Nat
deriving DecidableEq

/-- A row of the `treeherder` table (jobs.py lines 54-60). -/
structure ThRow where
  id : Nat
  attempts : Int
  last_attempt : Nat
  machine : String
  project : String
  job_collection : String
deriving DecidableEq

/-- The persistent state of the job store: the three tables plus the
auto-increment counters for the integer primary keys (starting at 1,
as sqlite rowids do). -/
structure JobsDB where
  jobs : List JobRow
  tests : List TestRow
  treeherder : List ThRow
  nextJobId : Nat
  nextTestId : Nat
deriving DecidableEq

/-- The empty store created by Jobs.__init__. -/
def JobsDB.empty : JobsDB :=
  { jobs := [], tests := [], treeherder := [], nextJobId := 1, nextTestId := 1 }

/-- Maximum number of claim attempts for a job (jobs.py line 21). -/
def Jobs.MAX_ATTEMPTS : Int := 3

/-- A test specification as passed to Jobs.new_job: the identity fields of
a PhoneTest object that the store persists. -/
structure TestSpec where
  name : String
  config_file : String
  chunk : Int
  repos : List String
deriving DecidableEq

/-! ## Jobs.new_job (jobs.py lines 147-207) -/

/-- The duplicate-job lookup of Jobs.new_job (jobs.py lines 160-169):
first `jobs` row with the given device and build_url. -/
def findJobId (jobs : List JobRow) (device build_url : String) : Option Nat :=
  (jobs.find? (fun j => j.device == device && j.build_url == build_url)).map (fun j => j.id)

/-- The duplicate-test lookup of Jobs.new_job (jobs.py lines 182-189). -/
def dupTest (tests : List TestRow) (t : TestSpec) (jid : Nat) : Bool :=
  tests.any (fun r =>
    r.name == t.name && r.config_file == t.config_file &&
    r.chunk == t.chunk && r.repos == t.repos && r.jobid == jid)

/-- The test row Jobs.new_job inserts for a test spec (jobs.py lines
199-203).  `guidGen` models test.generate_guid(); the code mints a fresh
uuid for every inserted row, modelled as a function of the fresh row id. -/
def newTestRow (guidGen : Nat → String) (jid : Nat) (db : JobsDB)
    (t : TestSpec) : TestRow :=
  { id := db.nextTestId, name := t.name, config_file := t.config_file,
    chunk := t.chunk, guid := guidGen db.nextTestId, repos := t.repos,
    jobid := jid }

/-- Append one freshly built test row to the store. -/
def pushTestRow (guidGen : Nat → String) (jid : Nat) (db : JobsDB)
    (t : TestSpec) : JobsDB :=
  { db with tests := db.tests ++ [newTestRow guidGen jid db t],
            nextTestId := db.nextTestId + 1 }

/-- The per-test insertion loop of Jobs.new_job (jobs.py lines 179-203).
Returns the accumulated new_tests list and the updated store. -/
def insertTests (alw : Bool) (guidGen : Nat → String) (jid : Nat) :
    JobsDB → List TestSpec → List TestSpec × JobsDB
  | db, [] => ([], db)
  | db, t :: ts =>
    if !alw && dupTest db.tests t jid then
      insertTests alw guidGen jid db ts
    else
      let rest := insertTests alw guidGen jid (pushTestRow guidGen jid db t) ts
      (t :: rest.1, rest.2)

/-- Jobs.new_job (jobs.py lines 147-207).  `alw` is the store's
allow_duplicates flag, `now` the insertion timestamp. -/
def new_job (alw : Bool) (guidGen : Nat → String) (now : Nat)
    (build_url build_id changeset tree revision revision_hash : String)
    (tests : List TestSpec) (enable_unittests : Bool) (device : String)
    (attempts : Int) (db : JobsDB) : List TestSpec × JobsDB :=
  let found := if alw then none else findJobId db.jobs device build_url
  match found with
  | some jid => insertTests alw guidGen jid db tests
  | none =>
    let jid := db.nextJobId
    let row : JobRow :=
      { id := jid, created := now, last_attempt := none,
        build_url := build_url, build_id := build_id, changeset := changeset,
        tree := tree, revision := revision, revision_hash := revision_hash,
        enable_unittests := enable_unittests, attempts := attempts,
        device := device }
    let db1 : JobsDB := { db with jobs := db.jobs ++ [row], nextJobId := jid + 1 }
    insertTests alw guidGen jid db1 tests

/-! ## Jobs.set_job_attempts, test_completed, job_completed, cancel_test -/

/-- Jobs.set_job_attempts (jobs.py lines 222-229). -/
def set_job_attempts (db : JobsDB) (jobid : Nat) (attempts : Int) : JobsDB :=
  { db with jobs := db.jobs.map (fun j =>
      if j.id == jobid then { j with attempts := attempts } else j) }

/-- Jobs.test_completed (jobs.py lines 427-432). -/
def test_completed (db : JobsDB) (guid : String) : JobsDB :=
  { db with tests := db.tests.filter (fun t => !(t.guid == guid)) }

/-- Jobs.job_completed (jobs.py lines 434-440). -/
def job_completed (db : JobsDB) (job_id : Nat) : JobsDB :=
  { db with tests := db.tests.filter (fun t => !(t.jobid == job_id)),
            jobs := db.jobs.filter (fun j => !(j.id == job_id)) }

/-- Jobs.cancel_test (jobs.py lines 325-373). -/
def cancel_test (db : JobsDB) (test_guid : String) : JobsDB :=
  let job_ids := (db.tests.filter (fun t => t.guid == test_guid)).map (fun t => t.jobid)
  match job_ids with
  | [] => db
  | job_id :: _ =>
    let tests1 := db.tests.filter (fun t => !(t.guid == test_guid))
    let count := (tests1.filter (fun t => t.jobid == job_id)).length
    let jobs1 := if count == 0
                 then db.jobs.filter (fun j => !(j.id == job_id))
                 else db.jobs
    { db with jobs := jobs1, tests := tests1 }

/-! ## Jobs.get_next_job (jobs.py lines 231-323) -/

/-- The strict precedes relation of the claim-next ORDER BY clause
(jobs.py lines 256-263): `istry desc, created asc` (or `created desc`
when lifo), where istry is `instr(build_url, "try")`. -/
def beats (lifo : Bool) (c b : JobRow) : Bool :=
  decide (instr b.build_url "try" < instr c.build_url "try") ||
  (decide (instr c.build_url "try" = instr b.build_url "try") &&
    (if lifo then decide (b.created < c.created) else decide (c.created < b.created)))

/-- The first row in the ORDER BY order: fold keeping the best so far
(the first row wins ties, matching fetchone on the sorted result). -/
def selectBest (lifo : Bool) : List JobRow → Option JobRow
  | [] => none
  | r :: rs => some (rs.foldl (fun b c => if beats lifo c b then c else b) r)

/-- The purge step of Jobs.get_next_job (jobs.py lines 238-254): delete
the tests of, then the rows of, the jobs of this device whose attempts
have reached MAX_ATTEMPTS. -/
def purge_jobs (device : String) (db : JobsDB) : JobsDB :=
  let deadIds := ((db.jobs.filter (fun j => j.device == device &&
                    decide (Jobs.MAX_ATTEMPTS ≤ j.attempts))).map (fun j => j.id))
  { db with
    tests := db.tests.filter (fun t => !(deadIds.contains t.jobid)),
    jobs := db.jobs.filter (fun j => !(j.device == device &&
              decide (Jobs.MAX_ATTEMPTS ≤ j.attempts))) }

/-- Insertion of a string into a sorted list, for the model of
Python list.sort() on the repos list (jobs.py line 312). -/
def insertSorted (x : String) : List String → List String
  | [] => [x]
  | y :: ys => if x ≤ y then x :: y :: ys else y :: insertSorted x ys

/-- Model of Python list.sort() on a string list. -/
def sortStrList (l : List String) : List String :=
  l.foldr insertSorted []

/-- The worker-test matching step of Jobs.get_next_job (jobs.py lines
310-319): keep the test rows of the job that match a test of the worker
by name, config_file, chunk and sorted repos list. -/
def matchWorkerTests (wtests : List TestSpec) (rows : List TestRow) : List TestRow :=
  rows.filter (fun r => wtests.any (fun t =>
    t.name == r.name && t.config_file == r.config_file &&
    t.chunk == r.chunk && t.repos == sortStrList r.repos))

/-- The job dict returned by Jobs.get_next_job: the selected row with
attempts incremented and last_attempt set, plus its matched test rows. -/
structure ClaimedJob where
  row : JobRow
  tests : List TestRow
deriving DecidableEq

/-- Jobs.get_next_job (jobs.py lines 231-323): purge exhausted jobs of the
device, select the first remaining job of the device in the ORDER BY
order, increment its attempts and stamp last_attempt, and return it with
its matched test rows. -/
def get_next_job (lifo : Bool) (device : String) (now : Nat)
    (wtests : List TestSpec) (db : JobsDB) : Option ClaimedJob × JobsDB :=
  let db1 := purge_jobs device db
  match selectBest lifo (db1.jobs.filter (fun j => j.device == device)) with
  | none => (none, db1)
  | some r =>
    let r' : JobRow := { r with attempts := r.attempts + 1, last_attempt := some now }
    let jobs2 := db1.jobs.map (fun j => if j.id == r.id then
                    { j with attempts := r.attempts + 1, last_attempt := some now }
                  else j)
    let rows := db1.tests.filter (fun t => t.jobid == r.id)
    (some { row := r', tests := matchWorkerTests wtests rows },
     { db1 with jobs := jobs2 })

/-! ## Status enumerations

Modelled from the spec: the PhoneStatus and PhoneTestResult enumerations
live in phonetest.py, which is not among the sources; the spec lists the
phone statuses in its data model section and the result values in its
external-interfaces section, and worker.py additionally references
PhoneStatus.OK. -/

/-- Phone status values (spec data model, plus OK used by worker.ping). -/
inductive PhoneStatus where
  | IDLE | FETCHING | INSTALLING | CHARGING | WORKING
  | DISCONNECTED | ERROR | DISABLED | REBOOTING | SHUTDOWN | OK
deriving DecidableEq

/-- Test result values (spec external interfaces; PhoneTestResult). -/
inductive TResult where
  | success | testfailed | busted | exception | usercancel | retry
deriving DecidableEq

/-! ## Worker per-job execution (worker.py PhoneWorkerSubProcess) -/

/-- A PhoneTest object as it enters the run_tests loop: its store
identity, its current job guid and its current result status. -/
structure TestCase where
  spec : TestSpec
  guid : String
  status : TResult
deriving DecidableEq

/-- The ambient conditions of one iteration of the run_tests test loop
(worker.py lines 665-763), one per test:
cmdInterrupt is the interrupt flag of process_autophone_cmd (line 669),
shuttingdown and disabled are the worker state at lines 670-675,
deviceOk is self.is_ok() at line 675,
statusAfterTry and completed are the outcome of the setup/battery/run
block of lines 686-717 (the test drivers are external contracts), and
teardownRaises tells whether teardown_job raised (lines 726-734), in
which case test_failure records an EXCEPTION result. -/
structure StepEnv where
  cmdInterrupt : Bool
  shuttingdown : Bool
  disabled : Bool
  deviceOk : Bool
  statusAfterTry : TResult
  completed : Bool
  teardownRaises : Bool
deriving DecidableEq

/-- The claimed-job dict as the worker sees it (the fields of the dict
built by Jobs.get_next_job that run_tests and handle_job read). -/
structure JobDict where
  id : Nat
  build_url : String
  build_id : String
  changeset : String
  tree : String
  revision : String
  revision_hash : String
  enable_unittests : Bool
  attempts : Int
deriving DecidableEq

/-- The record of one call to jobs.new_job made by the retry re-enqueue
of run_tests (worker.py lines 749-758). -/
structure ReenqCall where
  build_url : String
  build_id : String
  changeset : String
  tree : String
  revision : String
  revision_hash : String
  test : TestSpec
  enable_unittests : Bool
  device : String
  attempts : Int
deriving DecidableEq

/-- Outcome of the end-of-test block of run_tests. -/
structure FinishOut where
  status : TResult
  reenq : Option ReenqCall
  db : JobsDB
deriving DecidableEq

/-- The end-of-test block of run_tests (worker.py lines 719-763): mark the
result RETRY when the test did not complete and attempts are below
MAX_ATTEMPTS, tear down (a raising teardown records EXCEPTION), remove
the test row, and re-submit the test through jobs.new_job when the retry
condition still holds on the post-teardown status. -/
def finish_test (alw : Bool) (guidGen : Nat → String) (now : Nat)
    (device : String) (job : JobDict) (att : Int) (t : TestCase) (e : StepEnv)
    (db : JobsDB) : FinishOut :=
  let s0 := e.statusAfterTry
  let s1 := if s0 ≠ TResult.usercancel && !e.completed &&
               decide (att < Jobs.MAX_ATTEMPTS)
            then TResult.retry else s0
  let s2 := if e.teardownRaises then TResult.exception else s1
  let db1 := test_completed db t.guid
  if s2 ≠ TResult.usercancel && !e.completed && decide (att < Jobs.MAX_ATTEMPTS) then
    let call : ReenqCall :=
      { build_url := job.build_url, build_id := job.build_id,
        changeset := job.changeset, tree := job.tree,
        revision := job.revision, revision_hash := job.revision_hash,
        test := t.spec, enable_unittests := job.enable_unittests,
        device := device, attempts := att }
    let db2 := (new_job alw guidGen now job.build_url job.build_id job.changeset
                  job.tree job.revision job.revision_hash [t.spec]
                  job.enable_unittests device att db1).2
    { status := s2, reenq := some call, db := db2 }
  else
    { status := s2, reenq := none, db := db1 }

/-- The test loop of run_tests (worker.py lines 665-763), threading the
local job attempts value and the store.  Returns the run_tests result
flag, the final local attempts value and the store. -/
def run_tests_loop (alw : Bool) (guidGen : Nat → String) (now : Nat)
    (device : String) (job : JobDict) :
    List (TestCase × StepEnv) → Int → JobsDB → Bool × Int × JobsDB
  | [], att, db => (true, att, db)
  | (t, e) :: rest, att, db =>
    if t.status == TResult.usercancel then
      run_tests_loop alw guidGen now device job rest att db
    else if e.cmdInterrupt || e.shuttingdown || e.disabled then
      (false, att, db)
    else if e.shuttingdown || e.disabled || !e.deviceOk then
      (false, att - 1, set_job_attempts db job.id (att - 1))
    else
      let fo := finish_test alw guidGen now device job att t e db
      run_tests_loop alw guidGen now device job rest att fo.db

/-- The ambient conditions of one handle_job/run_tests invocation:
fetchOk is the build-cache response (worker.py line 795), the pre fields
are the pre-install interrupt gate (lines 653-657), installOk the
install_build outcome (line 658), and steps the per-test conditions. -/
structure RunEnv where
  fetchOk : Bool
  preCmdInterrupt : Bool
  preShutdown : Bool
  preDisabled : Bool
  installOk : Bool
  steps : List StepEnv
deriving DecidableEq

/-- PhoneWorkerSubProcess.run_tests (worker.py lines 636-771). -/
def run_tests (env : RunEnv) (alw : Bool) (guidGen : Nat → String) (now : Nat)
    (device : String) (job : JobDict) (tcases : List TestCase) (db : JobsDB) :
    Bool × Int × JobsDB :=
  if env.preCmdInterrupt || env.preShutdown || env.preDisabled then
    (false, job.attempts, db)
  else if !env.installOk then
    (false, job.attempts, db)
  else
    run_tests_loop alw guidGen now device job (tcases.zip env.steps) job.attempts db

/-- PhoneWorkerSubProcess.handle_job (worker.py lines 780-822): fetch the
build (returning early on failure), run the tests, then either delete
the job on a True result or decrement the local attempts value once more
and write it back on a False result (lines 800-811). -/
def handle_job (env : RunEnv) (alw : Bool) (guidGen : Nat → String) (now : Nat)
    (device : String) (job : JobDict) (tcases : List TestCase) (db : JobsDB) :
    JobsDB :=
  if !env.fetchOk then db
  else
    let out := run_tests env alw guidGen now device job tcases db
    if out.1 then job_completed out.2.2 job.id
    else set_job_attempts out.2.2 job.id (out.2.1 - 1)

/-! ## Build installation (worker.py PhoneWorkerSubProcess.install_build) -/

/-- Outcome of one device-controller call inside install_build: success,
an ADBError whose message may contain the token Failure, or an
ADBTimeoutError. -/
inductive ADBOutcome where
  | ok
  | adbError (failureMsg : Bool)
  | adbTimeout
deriving DecidableEq

/-- The ambient conditions of one install_build call: the retry limit,
whether the device is ok before each attempt, and the outcome of the
uninstall and install bodies on each 1-based attempt. -/
structure InstallEnv where
  retryLimit : Nat
  okStream : Nat → Bool
  uninstallOutcome : Nat → ADBOutcome
  installOutcome : Nat → ADBOutcome

/-- The uninstall retry loop of install_build (worker.py lines 565-602).
Each iteration resets uninstalled to False, breaks when the device is
not ok, and runs the uninstall body: on success it sets uninstalled and
breaks; on ADBError it sets uninstalled only when the error message
contains Failure and then breaks unconditionally (line 590; the retry
logging after that break is unreachable); on ADBTimeoutError it sleeps
and retries.  Returns the final uninstalled flag and the number of
attempts that executed the body. -/
def uninstallLoop (env : InstallEnv) : Nat → Nat → Nat → Bool × Nat
  | _, 0, tries => (false, tries)
  | attempt, remaining + 1, tries =>
    if !env.okStream attempt then (false, tries)
    else
      match env.uninstallOutcome attempt with
      | ADBOutcome.ok => (true, tries + 1)
      | ADBOutcome.adbError f => (f, tries + 1)
      | ADBOutcome.adbTimeout => uninstallLoop env (attempt + 1) remaining (tries + 1)

/-- The install retry loop of install_build (worker.py lines 609-631):
both ADBError and ADBTimeoutError log, ping, sleep and retry. -/
def installLoop (env : InstallEnv) : Nat → Nat → Nat → Bool × Nat
  | _, 0, tries => (false, tries)
  | attempt, remaining + 1, tries =>
    if !env.okStream attempt then (false, tries)
    else
      match env.installOutcome attempt with
      | ADBOutcome.ok => (true, tries + 1)
      | ADBOutcome.adbError _ => installLoop env (attempt + 1) remaining (tries + 1)
      | ADBOutcome.adbTimeout => installLoop env (attempt + 1) remaining (tries + 1)

/-- PhoneWorkerSubProcess.install_build (worker.py lines 552-634):
returns the success flag and the number of attempts each loop made. -/
def install_build (env : InstallEnv) : Bool × Nat × Nat :=
  let u := uninstallLoop env 1 env.retryLimit 0
  if !u.1 then (false, u.2, 0)
  else
    let i := installLoop env 1 env.retryLimit 0
    (i.1, u.2, i.2)

/-! ## Supervisor heartbeat sweep (autophone.py lines 331-351) -/

/-- The last status message the supervisor recorded for a worker. -/
structure LastStatus where
  phone_status : PhoneStatus
  timestamp : Int
deriving DecidableEq

/-- A registered worker as the sweep sees it. -/
structure WorkerRec where
  lastStatus : Option LastStatus
deriving DecidableEq

/-- The per-worker stop decision of check_for_unrecoverable_errors
(autophone.py lines 344-351): a worker is force-stopped when its status
is not FETCHING and its last status is older than maximum_heartbeat
seconds. -/
def heartbeat_stop (now maximum_heartbeat : Int) (w : WorkerRec) : Bool :=
  match w.lastStatus with
  | none => false
  | some s =>
    decide (s.phone_status ≠ PhoneStatus.FETCHING) &&
    decide (maximum_heartbeat < now - s.timestamp)

/-- The per-worker unrecoverable contribution of
check_for_unrecoverable_errors (autophone.py lines 337-351):
DISCONNECTED status or a stale heartbeat set the flag. -/
def unrecoverable_of (now maximum_heartbeat : Int) (w : WorkerRec) : Bool :=
  match w.lastStatus with
  | none => false
  | some s =>
    (s.phone_status == PhoneStatus.DISCONNECTED) ||
    (decide (s.phone_status ≠ PhoneStatus.FETCHING) &&
     decide (maximum_heartbeat < now - s.timestamp))

/-- AutoPhone.check_for_unrecoverable_errors (autophone.py lines 331-351):
fold the flag over all workers starting from its current value, and
record which workers are stopped. -/
def check_for_unrecoverable_errors (now maximum_heartbeat : Int) (flag0 : Bool)
    (workers : List WorkerRec) : Bool × List Bool :=
  (workers.foldl (fun a w => a || unrecoverable_of now maximum_heartbeat w) flag0,
   workers.map (heartbeat_stop now maximum_heartbeat))

/-! ## Pulse build-event admission filter (autophonepulsemonitor.py) -/

/-- The monitor configuration relevant to handle_build. -/
structure PulseConfig where
  trees : List String
  platforms : List String
  buildtypes : List String
deriving DecidableEq

/-- The projected build properties of a pulse build message.  A property
that is absent or falsy is never stored (autophonepulsemonitor.py line
343), so the empty string stands for a missing field. -/
structure BuildData where
  builderName : String
  appName : String
  branch : String
  comments : String
  packageUrl : String
  platform : String
deriving DecidableEq

/-- Build type derivation (autophonepulsemonitor.py line 339). -/
def build_type_of (builderName : String) : String :=
  if strHas "debug" builderName then "debug" else "opt"

/-- The required-field gate of handle_build (autophonepulsemonitor.py
lines 346-348): appName, branch, comments, packageUrl and platform must
be present and truthy. -/
def required_ok (b : BuildData) : Bool :=
  !(b.appName == "") && !(b.branch == "") && !(b.comments == "") &&
  !(b.packageUrl == "") && !(b.platform == "")

/-- AutophonePulseMonitor.handle_build admission decision
(autophonepulsemonitor.py lines 346-363): true when the build callback
is invoked. -/
def handle_build (cfg : PulseConfig) (b : BuildData) : Bool :=
  required_ok b &&
  (b.appName == "Fennec") &&
  listLeads "android".toList b.platform.toList &&
  cfg.trees.contains b.branch &&
  cfg.platforms.contains b.platform &&
  cfg.buildtypes.contains (build_type_of b.builderName) &&
  (if b.branch == "try" then strHas "autophone" b.comments else true)

/-! ## PhoneWorker.process_msg (worker.py lines 191-203) -/

/-- A status message routed back to the main process
(worker.py PhoneTestMessage). -/
structure PhoneTestMessage where
  phone_status : PhoneStatus
  build : Option String
  message : Option String
  timestamp : Int
deriving DecidableEq

/-- The status bookkeeping of a PhoneWorker in the main process
(worker.py lines 113-115). -/
structure PhoneWorkerSt where
  last_status_msg : Option PhoneTestMessage
  first_status_of_type : Option PhoneTestMessage
  last_status_of_previous_type : Option PhoneTestMessage
deriving DecidableEq

/-- PhoneWorker.process_msg (worker.py lines 191-203).  Returns none on
the path that dereferences a missing last_status_msg (a Heartbeat as the
very first message raises AttributeError in the source). -/
def process_msg (s : PhoneWorkerSt) (msg : PhoneTestMessage) :
    Option PhoneWorkerSt :=
  let newType :=
    match s.last_status_msg with
    | none => true
    | some m => decide (msg.phone_status ≠ m.phone_status)
  let s1 := if newType then
              { s with last_status_of_previous_type := s.last_status_msg,
                       first_status_of_type := some msg }
            else s
  if msg.message == some "Heartbeat" then
    match s1.last_status_msg with
    | none => none
    | some m =>
      let m2 : PhoneTestMessage := { m with timestamp := msg.timestamp }
      some { s1 with last_status_msg := some m2 }
  else
    some { s1 with last_status_msg := some msg }

/-! ## Claim-order specification and concrete scenarios

The remaining definitions are the comparison definition written from the
spec's words for the ordering claim, and the concrete inputs used by the
counterexamples and evidence theorems. -/

/-- Modelled from the spec: the ordering the ordering claim asserts for
claim-next, stated in the spec's words: try builds (build_url containing
the token try) before non-try builds, and among jobs of equal try status
ascending creation time (descending when lifo).  To be compared with
`beats`, the order the code implements. -/
def specBeats (lifo : Bool) (c b : JobRow) : Bool :=
  (strHas "try" c.build_url && !(strHas "try" b.build_url)) ||
  ((strHas "try" c.build_url == strHas "try" b.build_url) &&
    (if lifo then decide (b.created < c.created) else decide (c.created < b.created)))

/-- A deterministic stand-in for test.generate_guid. -/
def guidGen0 : Nat → String := fun n => "guid" ++ toString n

/-- Job store with two pending try jobs for device d whose build urls
hold the token try at different positions. -/
def c3db : JobsDB :=
  { jobs := [
      { id := 1, created := 1, last_attempt := none, build_url := "try-a",
        build_id := "b1", changeset := "c", tree := "try", revision := "r",
        revision_hash := "rh", enable_unittests := false, attempts := 0,
        device := "d" },
      { id := 2, created := 2, last_attempt := none, build_url := "zz-try",
        build_id := "b2", changeset := "c", tree := "try", revision := "r",
        revision_hash := "rh", enable_unittests := false, attempts := 0,
        device := "d" }],
    tests := [], treeherder := [], nextJobId := 3, nextTestId := 1 }

/-- Job store holding a single job of device a with 4 attempts. -/
def c2db : JobsDB :=
  { jobs := [
      { id := 1, created := 1, last_attempt := none, build_url := "u",
        build_id := "b", changeset := "c", tree := "t", revision := "r",
        revision_hash := "rh", enable_unittests := false, attempts := 4,
        device := "a" }],
    tests := [], treeherder := [], nextJobId := 2, nextTestId := 1 }

/-- The store right after a claim: job 1 of device d was claimed (its
attempts were bumped from 0 to 1) and has one pending test row. -/
def c1db : JobsDB :=
  { jobs := [
      { id := 1, created := 1, last_attempt := some 5, build_url := "u",
        build_id := "b", changeset := "c", tree := "t", revision := "r",
        revision_hash := "rh", enable_unittests := false, attempts := 1,
        device := "d" }],
    tests := [
      { id := 1, name := "t1", config_file := "cfg", chunk := 1, guid := "g0",
        repos := ["mc"], jobid := 1 }],
    treeherder := [], nextJobId := 2, nextTestId := 2 }

/-- The test spec of the single test of job 1. -/
def c1spec : TestSpec :=
  { name := "t1", config_file := "cfg", chunk := 1, repos := ["mc"] }

/-- The claimed-job dict matching c1db after the claim. -/
def c1job : JobDict :=
  { id := 1, build_url := "u", build_id := "b", changeset := "c", tree := "t",
    revision := "r", revision_hash := "rh", enable_unittests := false,
    attempts := 1 }

/-- The worker test object for the job's single test. -/
def c1test : TestCase := { spec := c1spec, guid := "g0", status := TResult.success }

/-- Run conditions for the claim about interruptions: fetch and install
succeed, no operator command arrives, but the device health check fails
(is_ok false) when the worker reaches the test. -/
def c1env : RunEnv :=
  { fetchOk := true, preCmdInterrupt := false, preShutdown := false,
    preDisabled := false, installOk := true,
    steps := [{ cmdInterrupt := false, shuttingdown := false, disabled := false,
                deviceOk := false, statusAfterTry := TResult.success,
                completed := false, teardownRaises := false }] }

/-- Run conditions for the retry claim: everything healthy, the single
test runs but does not complete and ends with a testfailed result. -/
def c4env : RunEnv :=
  { fetchOk := true, preCmdInterrupt := false, preShutdown := false,
    preDisabled := false, installOk := true,
    steps := [{ cmdInterrupt := false, shuttingdown := false, disabled := false,
                deviceOk := true, statusAfterTry := TResult.testfailed,
                completed := false, teardownRaises := false }] }

/-- Install conditions where every uninstall attempt raises a transient
ADBError whose message does not contain the token Failure. -/
def c8envError : InstallEnv :=
  { retryLimit := 3, okStream := fun _ => true,
    uninstallOutcome := fun _ => ADBOutcome.adbError false,
    installOutcome := fun _ => ADBOutcome.ok }

/-- Install conditions where every uninstall attempt raises an
ADBTimeoutError. -/
def c8envTimeout : InstallEnv :=
  { retryLimit := 3, okStream := fun _ => true,
    uninstallOutcome := fun _ => ADBOutcome.adbTimeout,
    installOutcome := fun _ => ADBOutcome.ok }

/-! ## Order lemmas for the claim-next selection -/

/-- The ORDER BY precedes relation is irreflexive. -/
theorem beats_irrefl (lifo : Bool) (x : JobRow) : beats lifo x x = false := by
  cases lifo <;> simp [beats]

/-- The ORDER BY precedes relation is transitive. -/
theorem beats_trans (lifo : Bool) {x y z : JobRow}
    (h1 : beats lifo x y = true) (h2 : beats lifo y z = true) :
    beats lifo x z = true := by
  cases lifo <;> simp [beats] at h1 h2 ⊢ <;> omega

/-- The complement of the ORDER BY precedes relation is transitive. -/
theorem beats_neg_trans (lifo : Bool) {x y z : JobRow}
    (h1 : beats lifo x y = false) (h2 : beats lifo y z = false) :
    beats lifo x z = false := by
  cases lifo <;> simp [beats] at h1 h2 ⊢ <;> omega

/-- The fold inside selectBest returns a member of the candidate list
that no candidate strictly precedes. -/
theorem foldl_best_spec (lifo : Bool) :
    ∀ (l : List JobRow) (b : JobRow),
      (l.foldl (fun u c => if beats lifo c u then c else u) b) ∈ b :: l ∧
      ∀ x ∈ b :: l,
        beats lifo x (l.foldl (fun u c => if beats lifo c u then c else u) b) = false := by
  intro l
  induction l with
  | nil =>
    intro b
    refine ⟨List.mem_singleton.mpr rfl, ?_⟩
    intro x hx
    rw [List.mem_singleton] at hx
    subst hx
    exact beats_irrefl lifo x
  | cons c cs ih =>
    intro b
    simp only [List.foldl_cons]
    by_cases h : beats lifo c b = true
    · rw [if_pos h]
      obtain ⟨hmem, hmin⟩ := ih c
      refine ⟨?_, ?_⟩
      · rcases List.mem_cons.mp hmem with h1 | h1
        · exact List.mem_cons.mpr (Or.inr (by rw [h1]; exact List.mem_cons_self c cs))
        · exact List.mem_cons.mpr (Or.inr (List.mem_cons.mpr (Or.inr h1)))
      · intro x hx
        rcases List.mem_cons.mp hx with h1 | hx2
        · rw [h1]
          by_contra hb
          rw [Bool.not_eq_false] at hb
          have hcr := hmin c (List.mem_cons_self c cs)
          have htr := beats_trans lifo h hb
          rw [htr] at hcr
          exact absurd hcr (by simp)
        · exact hmin x hx2
    · rw [if_neg h]
      rw [Bool.not_eq_true] at h
      obtain ⟨hmem, hmin⟩ := ih b
      refine ⟨?_, ?_⟩
      · rcases List.mem_cons.mp hmem with h1 | h1
        · exact List.mem_cons.mpr (Or.inl h1)
        · exact List.mem_cons.mpr (Or.inr (List.mem_cons.mpr (Or.inr h1)))
      · intro x hx
        rcases List.mem_cons.mp hx with h1 | hx2
        · rw [h1]
          exact hmin b (List.mem_cons_self b cs)
        · rcases List.mem_cons.mp hx2 with h1 | hx3
          · rw [h1]
            exact beats_neg_trans lifo h (hmin b (List.mem_cons_self b cs))
          · exact hmin x (List.mem_cons.mpr (Or.inr hx3))

/-- selectBest returns a member that no candidate strictly precedes. -/
theorem selectBest_spec (lifo : Bool) {l : List JobRow} {r : JobRow}
    (h : selectBest lifo l = some r) :
    r ∈ l ∧ ∀ x ∈ l, beats lifo x r = false := by
  match l with
  | [] => simp [selectBest] at h
  | b :: rest =>
    simp only [selectBest, Option.some.injEq] at h
    obtain ⟨hmem, hmin⟩ := foldl_best_spec lifo rest b
    rw [h] at hmem hmin
    exact ⟨hmem, hmin⟩

/-- selectBest succeeds on a non-empty candidate list. -/
theorem selectBest_isSome (lifo : Bool) {l : List JobRow} (h : l ≠ []) :
    ∃ r, selectBest lifo l = some r := by
  match l with
  | [] => exact absurd rfl h
  | b :: rest => exact ⟨_, rfl⟩

/-! ## Store lemmas for new_job -/

/-- insertTests never touches the jobs table. -/
theorem insertTests_jobs (alw : Bool) (g : Nat → String) (jid : Nat) :
    ∀ (ts : List TestSpec) (db : JobsDB),
      (insertTests alw g jid db ts).2.jobs = db.jobs := by
  intro ts
  induction ts with
  | nil => intro db; rfl
  | cons t ts ih =>
    intro db
    by_cases h : (!alw && dupTest db.tests t jid) = true
    · rw [insertTests, if_pos h]
      exact ih db
    · rw [insertTests, if_neg h]
      exact ih _

/-- insertTests only appends test rows. -/
theorem insertTests_tests (alw : Bool) (g : Nat → String) (jid : Nat) :
    ∀ (ts : List TestSpec) (db : JobsDB),
      ∃ ex, (insertTests alw g jid db ts).2.tests = db.tests ++ ex := by
  intro ts
  induction ts with
  | nil => intro db; exact ⟨[], by simp [insertTests]⟩
  | cons t ts ih =>
    intro db
    by_cases h : (!alw && dupTest db.tests t jid) = true
    · rw [insertTests, if_pos h]
      exact ih db
    · rw [insertTests, if_neg h]
      obtain ⟨ex, hex⟩ := ih (pushTestRow g jid db t)
      refine ⟨newTestRow g jid db t :: ex, ?_⟩
      show (insertTests alw g jid (pushTestRow g jid db t) ts).2.tests = _
      rw [hex]
      simp [pushTestRow]

/-- A duplicate test stays a duplicate when rows are appended. -/
theorem dupTest_append {ts : List TestRow} {t : TestSpec} {jid : Nat}
    (ex : List TestRow) (h : dupTest ts t jid = true) :
    dupTest (ts ++ ex) t jid = true := by
  simp only [dupTest, List.any_append, Bool.or_eq_true]
  exact Or.inl h

/-- After insertTests with duplicates disallowed, every processed test
spec has a matching row for the job. -/
theorem insertTests_dup_all (g : Nat → String) (jid : Nat) :
    ∀ (ts : List TestSpec) (db : JobsDB) (t : TestSpec), t ∈ ts →
      dupTest (insertTests false g jid db ts).2.tests t jid = true := by
  intro ts
  induction ts with
  | nil => intro db t ht; cases ht
  | cons t0 ts ih =>
    intro db t ht
    by_cases h : dupTest db.tests t0 jid = true
    · have hc : (!false && dupTest db.tests t0 jid) = true := by simp [h]
      rw [insertTests, if_pos hc]
      rcases List.mem_cons.mp ht with h1 | h1
      · obtain ⟨ex, hex⟩ := insertTests_tests false g jid ts db
        rw [hex, h1]
        exact dupTest_append ex h
      · exact ih db t h1
    · have hc : ¬((!false && dupTest db.tests t0 jid) = true) := by simp [h]
      rw [insertTests, if_neg hc]
      rcases List.mem_cons.mp ht with h1 | h1
      · obtain ⟨ex, hex⟩ := insertTests_tests false g jid ts (pushTestRow g jid db t0)
        show dupTest (insertTests false g jid (pushTestRow g jid db t0) ts).2.tests t jid = true
        rw [hex, h1]
        apply dupTest_append
        simp [dupTest, pushTestRow, newTestRow]
      · exact ih (pushTestRow g jid db t0) t h1

/-- insertTests with duplicates disallowed is the identity when every
test spec already has a matching row for the job. -/
theorem insertTests_skip (g : Nat → String) (jid : Nat) :
    ∀ (ts : List TestSpec) (db : JobsDB),
      (∀ t ∈ ts, dupTest db.tests t jid = true) →
      insertTests false g jid db ts = ([], db) := by
  intro ts
  induction ts with
  | nil => intro db _; rfl
  | cons t0 ts ih =>
    intro db h
    have hc : (!false && dupTest db.tests t0 jid) = true := by
      simp [h t0 (List.mem_cons_self t0 ts)]
    rw [insertTests, if_pos hc]
    exact ih db (fun t ht => h t (List.mem_cons.mpr (Or.inr ht)))

/-- new_job with duplicates disallowed is the identity when a jobs row
for the device and build url exists and every test spec already has a
matching row for it. -/
theorem new_job_dup_noop (g : Nat → String) (now : Nat)
    (url bid cs tr rv rh : String) (tests : List TestSpec) (eu : Bool)
    (device : String) (att : Int) (db : JobsDB) (jid : Nat)
    (hfind : findJobId db.jobs device url = some jid)
    (hdup : ∀ t ∈ tests, dupTest db.tests t jid = true) :
    new_job false g now url bid cs tr rv rh tests eu device att db = ([], db) := by
  unfold new_job
  simp only [Bool.false_eq_true, if_false, hfind]
  exact insertTests_skip g jid tests db hdup

/-- After any new_job call with duplicates disallowed, a jobs row for the
device and build url exists and every test spec of the call has a
matching row for it. -/
theorem new_job_establishes (g : Nat → String) (now : Nat)
    (url bid cs tr rv rh : String) (tests : List TestSpec) (eu : Bool)
    (device : String) (att : Int) (db0 : JobsDB) :
    ∃ jid,
      findJobId (new_job false g now url bid cs tr rv rh tests eu device att db0).2.jobs
        device url = some jid ∧
      ∀ t ∈ tests,
        dupTest (new_job false g now url bid cs tr rv rh tests eu device att db0).2.tests
          t jid = true := by
  unfold new_job
  simp only [Bool.false_eq_true, if_false]
  cases h0 : findJobId db0.jobs device url with
  | some jid =>
    refine ⟨jid, ?_, ?_⟩
    · rw [insertTests_jobs]
      exact h0
    · intro t ht
      exact insertTests_dup_all g jid tests db0 t ht
  | none =>
    refine ⟨db0.nextJobId, ?_, ?_⟩
    · rw [insertTests_jobs]
      unfold findJobId at h0 ⊢
      have hnone : db0.jobs.find?
          (fun j => j.device == device && j.build_url == url) = none := by
        cases hf : db0.jobs.find?
            (fun j => j.device == device && j.build_url == url) with
        | none => rfl
        | some j => rw [hf] at h0; simp at h0
      rw [List.find?_append, hnone]
      simp
    · intro t ht
      exact insertTests_dup_all g db0.nextJobId tests _ t ht

/-- Claim C5: with duplicates disallowed, repeating a new_job call with
the same device, build url and test list returns no new tests and leaves
the store unchanged: no second jobs row and no duplicate test row. -/
theorem c5_new_job_idempotent (db0 : JobsDB) (g1 g2 : Nat → String)
    (now1 now2 : Nat) (url bid1 cs1 tr1 rv1 rh1 bid2 cs2 tr2 rv2 rh2 : String)
    (tests : List TestSpec) (eu1 eu2 : Bool) (device : String) (a1 a2 : Int) :
    new_job false g2 now2 url bid2 cs2 tr2 rv2 rh2 tests eu2 device a2
      (new_job false g1 now1 url bid1 cs1 tr1 rv1 rh1 tests eu1 device a1 db0).2 =
    ([], (new_job false g1 now1 url bid1 cs1 tr1 rv1 rh1 tests eu1 device a1 db0).2) := by
  obtain ⟨jid, hfind, hdup⟩ :=
    new_job_establishes g1 now1 url bid1 cs1 tr1 rv1 rh1 tests eu1 device a1 db0
  exact new_job_dup_noop g2 now2 url bid2 cs2 tr2 rv2 rh2 tests eu2 device a2 _ jid hfind hdup

/-! ## Claim-next theorems -/

/-- Membership in the purged jobs table: the row was there before, and if
it belongs to the purged device its attempts are below MAX_ATTEMPTS. -/
theorem mem_purge_jobs {device : String} {db : JobsDB} {j : JobRow}
    (h : j ∈ (purge_jobs device db).jobs) :
    j ∈ db.jobs ∧ (j.device = device → j.attempts < Jobs.MAX_ATTEMPTS) := by
  simp only [purge_jobs] at h
  rw [List.mem_filter] at h
  obtain ⟨hmem, hp⟩ := h
  refine ⟨hmem, ?_⟩
  intro hdev
  simp [hdev, Jobs.MAX_ATTEMPTS] at hp ⊢
  omega

/-- A row of the device with attempts below MAX_ATTEMPTS survives the
purge. -/
theorem mem_purge_jobs_of {device : String} {db : JobsDB} {j : JobRow}
    (hmem : j ∈ db.jobs) (hdev : j.device = device)
    (hatt : j.attempts < Jobs.MAX_ATTEMPTS) :
    j ∈ (purge_jobs device db).jobs := by
  simp only [purge_jobs]
  rw [List.mem_filter]
  refine ⟨hmem, ?_⟩
  simp only [Jobs.MAX_ATTEMPTS] at hatt
  simp [hdev, Jobs.MAX_ATTEMPTS]
  omega

/-- Claim C2 counterexample: get_next_job only purges the claiming
device, so a jobs row of another device keeps attempts above
MAX_ATTEMPTS across the call. -/
theorem c2_counterexample :
    ∃ j ∈ (get_next_job false "b" 10 [] c2db).2.jobs,
      Jobs.MAX_ATTEMPTS < j.attempts := by decide

/-- Claim C2 (amended to the claiming device): at the instant
get_next_job returns, every remaining jobs row of the claiming device
has attempts at most MAX_ATTEMPTS, and the claimed job comes from a
purged-table row of the device with attempts below MAX_ATTEMPTS,
incremented by exactly one. -/
theorem c2_device_attempts_bound (db : JobsDB) (lifo : Bool) (device : String)
    (now : Nat) (wtests : List TestSpec) :
    (∀ j ∈ (get_next_job lifo device now wtests db).2.jobs,
        j.device = device → j.attempts ≤ Jobs.MAX_ATTEMPTS) ∧
    (∀ cj db2, get_next_job lifo device now wtests db = (some cj, db2) →
        ∃ r ∈ (purge_jobs device db).jobs, r.device = device ∧
          r.attempts + 1 ≤ Jobs.MAX_ATTEMPTS ∧
          cj.row.attempts = r.attempts + 1) := by
  cases hsel : selectBest lifo
      ((purge_jobs device db).jobs.filter (fun j => j.device == device)) with
  | none =>
    constructor
    · intro j hj hdev
      simp only [get_next_job, hsel] at hj
      have := (mem_purge_jobs hj).2 hdev
      omega
    · intro cj db2 heq
      simp only [get_next_job, hsel] at heq
      simp at heq
  | some r =>
    obtain ⟨hrmem, hrmin⟩ := selectBest_spec lifo hsel
    rw [List.mem_filter] at hrmem
    have hrdev : r.device = device := eq_of_beq hrmem.2
    have hratt : r.attempts < Jobs.MAX_ATTEMPTS := (mem_purge_jobs hrmem.1).2 hrdev
    constructor
    · intro j hj hdev
      simp only [get_next_job, hsel] at hj
      rw [List.mem_map] at hj
      obtain ⟨j0, hj0, hfj⟩ := hj
      by_cases hid : (j0.id == r.id) = true
      · rw [if_pos hid] at hfj
        rw [← hfj]
        simp only []
        omega
      · rw [if_neg hid] at hfj
        rw [← hfj]
        exact le_of_lt ((mem_purge_jobs hj0).2 (hfj ▸ hdev))
    · intro cj db2 heq
      simp only [get_next_job, hsel] at heq
      have hcj : cj.row.attempts = r.attempts + 1 := by
        have h1 := congrArg (fun p => p.1) heq
        simp only [] at h1
        have h2 := Option.some.inj h1
        rw [← h2]
      exact ⟨r, hrmem.1, hrdev, by omega, hcj⟩

/-- Witness for the device-scoped attempts bound at a concrete store. -/
theorem c2_bound_witness :
    ({ id := 1, created := 1, last_attempt := some 10, build_url := "u",
       build_id := "b", changeset := "c", tree := "t", revision := "r",
       revision_hash := "rh", enable_unittests := false, attempts := 2,
       device := "d" } : JobRow).attempts ≤ Jobs.MAX_ATTEMPTS := by
  have h := (c2_device_attempts_bound c1db false "d" 10 []).1
  exact h _ (by decide) (by decide)

/-- Claim C3 counterexample: the code orders by the position of the token
try inside build_url, not by a try flag, so of two try jobs the one whose
url holds the token later wins even though it was created later; job 1
strictly precedes the returned job 2 in the order the claim states. -/
theorem c3_counterexample :
    ((get_next_job false "d" 10 [] c3db).1.map (fun cj => cj.row.id) = some 2) ∧
    ((get_next_job false "d" 10 [] c3db).1.map (fun cj =>
        c3db.jobs.any (fun r1 => r1.id == 1 && specBeats false r1 cj.row)) =
      some true) := by decide

/-- Claim C3 (amended to the implemented key): with a pending job for the
device, get_next_job returns the job that is first by the key
instr(build_url, try) descending then created ascending (descending when
lifo), with attempts incremented by one, last_attempt stamped, and its
matched test rows attached. -/
theorem c3_claim_next_order (db : JobsDB) (lifo : Bool) (device : String)
    (now : Nat) (wtests : List TestSpec)
    (hpend : ∃ r0 ∈ db.jobs, r0.device = device ∧
      r0.attempts < Jobs.MAX_ATTEMPTS) :
    ∃ r ∈ (purge_jobs device db).jobs,
      r.device = device ∧
      (get_next_job lifo device now wtests db).1 =
        some { row := { r with attempts := r.attempts + 1, last_attempt := some now },
               tests := matchWorkerTests wtests ((purge_jobs device db).tests.filter (fun t => t.jobid == r.id)) } ∧
      (∀ k ∈ (purge_jobs device db).jobs, k.device = device →
        beats lifo k r = false) := by
  obtain ⟨r0, hr0mem, hr0dev, hr0att⟩ := hpend
  have hr0p : r0 ∈ (purge_jobs device db).jobs :=
    mem_purge_jobs_of hr0mem hr0dev hr0att
  have hr0f : r0 ∈ (purge_jobs device db).jobs.filter
      (fun j => j.device == device) := by
    rw [List.mem_filter]
    exact ⟨hr0p, by simp [hr0dev]⟩
  obtain ⟨r, hsel⟩ := selectBest_isSome lifo (List.ne_nil_of_mem hr0f)
  obtain ⟨hrmem, hrmin⟩ := selectBest_spec lifo hsel
  rw [List.mem_filter] at hrmem
  refine ⟨r, hrmem.1, eq_of_beq hrmem.2, ?_, ?_⟩
  · simp only [get_next_job, hsel]
  · intro k hk hkdev
    apply hrmin
    rw [List.mem_filter]
    exact ⟨hk, by simp [hkdev]⟩

/-- Witness for the claim-next ordering theorem at a concrete store. -/
theorem c3_order_witness :
    (get_next_job false "d" 10 [] c3db).1.isSome = true := by
  obtain ⟨r, _, _, heq, _⟩ := c3_claim_next_order c3db false "d" 10 [] (by decide)
  rw [heq]
  rfl

/-! ## cancel_test on an unknown guid -/

/-- Claim C9: cancel_test on a guid matching no test row leaves the
store untouched: no jobs, tests or treeherder row changes. -/
theorem c9_cancel_noop (db : JobsDB) (guid : String)
    (h : ∀ t ∈ db.tests, t.guid ≠ guid) :
    cancel_test db guid = db := by
  have hfil : db.tests.filter (fun t => t.guid == guid) = [] := by
    apply List.filter_eq_nil_iff.mpr
    intro t ht
    simp [h t ht]
  unfold cancel_test
  rw [hfil]
  rfl

/-- Witness: cancel_test with a guid absent from a concrete store. -/
theorem c9_cancel_noop_witness : cancel_test c1db "missing" = c1db :=
  c9_cancel_noop c1db "missing" (by decide)

/-! ## Supervisor heartbeat theorems -/

/-- Folding a boolean or over a list keeps a true accumulator true. -/
theorem foldl_or_acc_true (f : WorkerRec → Bool) :
    ∀ (l : List WorkerRec), l.foldl (fun a w => a || f w) true = true := by
  intro l
  induction l with
  | nil => rfl
  | cons w ws ih =>
    simp only [List.foldl_cons, Bool.true_or]
    exact ih

/-- Folding a boolean or over a list containing a true element is true. -/
theorem foldl_or_mem (f : WorkerRec → Bool) :
    ∀ (l : List WorkerRec) (a : Bool) (x : WorkerRec), x ∈ l → f x = true →
      l.foldl (fun a w => a || f w) a = true := by
  intro l
  induction l with
  | nil => intro a x hx; cases hx
  | cons w ws ih =>
    intro a x hx hfx
    rcases List.mem_cons.mp hx with h1 | h1
    · simp only [List.foldl_cons]
      rw [← h1, hfx, Bool.or_true]
      exact foldl_or_acc_true f ws
    · simp only [List.foldl_cons]
      exact ih (a || f w) x h1 hfx

/-- Claim C7: in the unrecoverable-error sweep a FETCHING worker is never
force-stopped on heartbeat grounds, while a worker in any other status
whose last status is older than maximum_heartbeat seconds is stopped and
sets the unrecoverable flag. -/
theorem c7_heartbeat (now maximum_heartbeat : Int) (flag0 : Bool)
    (ws : List WorkerRec) (w : WorkerRec) (s : LastStatus)
    (hmem : w ∈ ws) (hs : w.lastStatus = some s) :
    (s.phone_status = PhoneStatus.FETCHING →
      heartbeat_stop now maximum_heartbeat w = false) ∧
    (s.phone_status ≠ PhoneStatus.FETCHING →
      maximum_heartbeat < now - s.timestamp →
      heartbeat_stop now maximum_heartbeat w = true ∧
      (check_for_unrecoverable_errors now maximum_heartbeat flag0 ws).1 = true) := by
  constructor
  · intro hfetch
    unfold heartbeat_stop
    rw [hs]
    simp [hfetch]
  · intro hnf hold
    have hstop : heartbeat_stop now maximum_heartbeat w = true := by
      unfold heartbeat_stop
      rw [hs]
      simp [hnf, hold]
    refine ⟨hstop, ?_⟩
    unfold check_for_unrecoverable_errors
    apply foldl_or_mem _ ws flag0 w hmem
    unfold unrecoverable_of
    rw [hs]
    simp [hnf, hold]

/-- Witness: a stale FETCHING worker is spared while a stale IDLE worker
is stopped and flips the flag. -/
theorem c7_heartbeat_witness :
    heartbeat_stop 1000 10
      ({ lastStatus := some { phone_status := PhoneStatus.FETCHING, timestamp := 0 } } : WorkerRec) = false ∧
    heartbeat_stop 1000 10
      ({ lastStatus := some { phone_status := PhoneStatus.IDLE, timestamp := 0 } } : WorkerRec) = true ∧
    (check_for_unrecoverable_errors 1000 10 false
      [{ lastStatus := some { phone_status := PhoneStatus.FETCHING, timestamp := 0 } },
       { lastStatus := some { phone_status := PhoneStatus.IDLE, timestamp := 0 } }]).1 = true := by
  have h1 := c7_heartbeat 1000 10 false
    [{ lastStatus := some { phone_status := PhoneStatus.FETCHING, timestamp := 0 } },
     { lastStatus := some { phone_status := PhoneStatus.IDLE, timestamp := 0 } }]
    { lastStatus := some { phone_status := PhoneStatus.FETCHING, timestamp := 0 } }
    { phone_status := PhoneStatus.FETCHING, timestamp := 0 }
    (by decide) rfl
  have h2 := c7_heartbeat 1000 10 false
    [{ lastStatus := some { phone_status := PhoneStatus.FETCHING, timestamp := 0 } },
     { lastStatus := some { phone_status := PhoneStatus.IDLE, timestamp := 0 } }]
    { lastStatus := some { phone_status := PhoneStatus.IDLE, timestamp := 0 } }
    { phone_status := PhoneStatus.IDLE, timestamp := 0 }
    (by decide) rfl
  exact ⟨h1.1 rfl, (h2.2 (by decide) (by decide)).1, (h2.2 (by decide) (by decide)).2⟩

/-! ## Pulse admission filter theorems -/

/-- Claim C6: for a build passing every other admission filter, a try
build invokes the callback iff its comments contain the token autophone,
and for a non-try build the decision does not depend on the (non-empty)
comments text. -/
theorem c6_try_filter (cfg : PulseConfig) (b : BuildData)
    (happ : b.appName = "Fennec")
    (hbr : b.branch ≠ "")
    (hpkg : b.packageUrl ≠ "")
    (hplat : b.platform ≠ "")
    (hand : listLeads "android".toList b.platform.toList = true)
    (htree : cfg.trees.contains b.branch = true)
    (hplat2 : cfg.platforms.contains b.platform = true)
    (hbt : cfg.buildtypes.contains (build_type_of b.builderName) = true) :
    (b.branch = "try" →
      (handle_build cfg b = true ↔ strHas "autophone" b.comments = true)) ∧
    (b.branch ≠ "try" → ∀ c1 c2 : String, c1 ≠ "" → c2 ≠ "" →
      handle_build cfg { b with comments := c1 } =
      handle_build cfg { b with comments := c2 }) := by
  have htree2 : b.branch ∈ cfg.trees := by simpa using htree
  have hplat3 : b.platform ∈ cfg.platforms := by simpa using hplat2
  have hbt2 : build_type_of b.builderName ∈ cfg.buildtypes := by simpa using hbt
  constructor
  · intro htry
    by_cases hc : b.comments = ""
    · constructor
      · intro hb
        unfold handle_build required_ok at hb
        simp [hc] at hb
      · intro hhas
        rw [hc] at hhas
        exact absurd hhas (by decide)
    · unfold handle_build required_ok
      rw [htry] at htree2
      simp only [String.toList] at hand
      simp [happ, hc, htry, htree2, hplat3, hbt2, hand, hbr, hpkg, hplat]
  · intro hnt c1 c2 hc1 hc2
    have e0 : (b.branch == "") = false := beq_eq_false_iff_ne.mpr hbr
    have e1 : (c1 == "") = false := beq_eq_false_iff_ne.mpr hc1
    have e2 : (c2 == "") = false := beq_eq_false_iff_ne.mpr hc2
    unfold handle_build required_ok
    simp [happ, hnt, htree2, hplat3, hbt2, hand, e0, hpkg, hplat, e1, e2]

/-- Witness: a try build with the autophone opt-in token is admitted. -/
theorem c6_try_filter_witness :
    handle_build
      { trees := ["try"], platforms := ["android-api-15"], buildtypes := ["opt"] }
      { builderName := "Android api-15 try build", appName := "Fennec",
        branch := "try", comments := "try: -u autophone-smoke",
        packageUrl := "http://x/fennec.apk", platform := "android-api-15" } = true := by
  have h := c6_try_filter
    { trees := ["try"], platforms := ["android-api-15"], buildtypes := ["opt"] }
    { builderName := "Android api-15 try build", appName := "Fennec",
      branch := "try", comments := "try: -u autophone-smoke",
      packageUrl := "http://x/fennec.apk", platform := "android-api-15" }
    rfl (by decide) (by decide) (by decide) (by decide) (by decide) (by decide)
    (by decide)
  exact (h.1 rfl).mpr (by decide)

/-! ## PhoneWorker.process_msg theorems -/

/-- Claim C10: a Heartbeat message processed after some earlier status
message only refreshes the recorded last status message timestamp; its
phone_status, build and message text are preserved, and when the
heartbeat carries the current phone_status (as worker heartbeats do) the
first-of-type and previous-type records are untouched as well. -/
theorem c10_heartbeat_frame (s : PhoneWorkerSt) (msg m : PhoneTestMessage)
    (hlast : s.last_status_msg = some m)
    (hmsg : msg.message = some "Heartbeat") :
    ((process_msg s msg).map (fun s2 => s2.last_status_msg)) =
      some (some { m with timestamp := msg.timestamp }) ∧
    (msg.phone_status = m.phone_status →
      ((process_msg s msg).map (fun s2 => s2.first_status_of_type)) =
        some s.first_status_of_type ∧
      ((process_msg s msg).map (fun s2 => s2.last_status_of_previous_type)) =
        some s.last_status_of_previous_type) := by
  unfold process_msg
  rw [hlast, hmsg]
  by_cases hps : msg.phone_status = m.phone_status
  · simp [hps, hlast]
  · simp [hps, hlast]

/-- Witness: a concrete heartbeat refreshes only the timestamp. -/
theorem c10_heartbeat_witness :
    ((process_msg
        { last_status_msg := some { phone_status := PhoneStatus.WORKING, build := some "bld", message := some "running", timestamp := 7 },
          first_status_of_type := some { phone_status := PhoneStatus.WORKING, build := some "bld", message := some "running", timestamp := 7 },
          last_status_of_previous_type := none }
        { phone_status := PhoneStatus.WORKING, build := none, message := some "Heartbeat", timestamp := 9 }).map
      (fun s2 => s2.last_status_msg)) =
      some (some { phone_status := PhoneStatus.WORKING, build := some "bld", message := some "running", timestamp := 9 }) := by
  have h := c10_heartbeat_frame
    { last_status_msg := some { phone_status := PhoneStatus.WORKING, build := some "bld", message := some "running", timestamp := 7 },
      first_status_of_type := some { phone_status := PhoneStatus.WORKING, build := some "bld", message := some "running", timestamp := 7 },
      last_status_of_previous_type := none }
    { phone_status := PhoneStatus.WORKING, build := none, message := some "Heartbeat", timestamp := 9 }
    { phone_status := PhoneStatus.WORKING, build := some "bld", message := some "running", timestamp := 7 }
    rfl rfl
  exact h.1

/-! ## Worker attempt bookkeeping and retry evidence -/

/-- Claim C1 evidence: when the device health check fails inside the
test loop, run_tests decrements and writes attempts once (worker.py
lines 677-678) and handle_job decrements and writes again (lines
808-811), leaving the job with the claim-time attempts minus two, one
below its pre-claim value, instead of the claimed attempts minus one. -/
theorem c1_double_decrement :
    (handle_job c1env false guidGen0 20 "d" c1job [c1test] c1db).jobs.map
      (fun j => j.attempts) = [c1job.attempts - 2] ∧
    c1job.attempts - 2 ≠ c1job.attempts - 1 := by decide

/-- Claim C4 evidence: with duplicate jobs disallowed (the default), the
retry re-enqueue attaches the fresh-guid test row to the existing job
row (same jobid 1, no second job row), and handle_job's job_completed
then deletes both the job and the re-enqueued row, losing the retry. -/
theorem c4_retry_lost :
    (run_tests c4env false guidGen0 20 "d" c1job [c1test] c1db).1 = true ∧
    ((run_tests c4env false guidGen0 20 "d" c1job [c1test] c1db).2.2.jobs.map
      (fun j => j.id)) = [1] ∧
    ((run_tests c4env false guidGen0 20 "d" c1job [c1test] c1db).2.2.tests.map
      (fun t => (t.jobid, t.guid))) = [(1, guidGen0 2)] ∧
    (handle_job c4env false guidGen0 20 "d" c1job [c1test] c1db).jobs = [] ∧
    (handle_job c4env false guidGen0 20 "d" c1job [c1test] c1db).tests = [] := by
  decide

/-- Claim C8 evidence: an uninstall attempt that raises a transient
ADBError (message without the token Failure) ends the retry loop after a
single attempt even though phone_retry_limit is 3, while an
ADBTimeoutError is retried the full 3 times. -/
theorem c8_uninstall_no_retry :
    install_build c8envError = (false, 1, 0) ∧
    c8envError.retryLimit = 3 ∧
    install_build c8envTimeout = (false, 3, 0) := by decide
